import Mathlib

/-!
A verification development for the neuron-shim library: a shallow embedding
of its model-path resolver, configuration loader, backend selector and
backend adapters (stub, onnx, tflite), together with theorems settling the
specification claims about them.

Strings from the C sources are embedded as lists of characters (`Str`),
byte memory as a function from addresses to byte values, and the
filesystem / environment / dynamic-library state as explicit parameters.
-/

namespace NeuronShim

/-- C strings, embedded as lists of characters. -/
abbrev Str := List Char

/-- Byte-addressed memory: address to byte value. -/
abbrev Mem := Nat → Nat

/-- `memset(addr, 0, n)` on a memory. -/
def memset (m : Mem) (addr n : Nat) : Mem :=
  fun a => if addr ≤ a ∧ a < addr + n then 0 else m a

/-- `memcpy(addr, src, n)`: writes `n` bytes taken from `src` at `addr`. -/
def memcpyN (m : Mem) (addr : Nat) (src : Nat → Nat) (n : Nat) : Mem :=
  fun a => if addr ≤ a ∧ a < addr + n then src (a - addr) else m a

/-! ## Model path resolver (src/model_resolver.c) -/

/-- POSIX `basename` (libgen.h), as used by `neuron_shim_resolve_model`:
empty string gives ".", a string of only separators gives "/", otherwise
the component after the last '/' once trailing slashes are removed. -/
def posixBasename (s : Str) : Str :=
  if s = [] then ['.']
  else
    let stripped := (s.reverse.dropWhile (fun c => c = '/')).reverse
    if stripped = [] then ['/']
    else (stripped.reverse.takeWhile (fun c => c ≠ '/')).reverse

/-- Does the directory string end in a separator?  Mirrors the C check
`dir_len > 0 && model_dir[dir_len - 1] == '/'`. -/
def endsWithSlash (s : Str) : Bool :=
  s.reverse.head? = some '/'

/-- The path string computed by `neuron_shim_resolve_model` before the
readability check.  The original path is first copied through a 1024-byte
buffer (`snprintf` into `tmp`), hence the `take 1023` truncation before
`basename`. -/
def resolve_path (original_path suffix model_dir : Str) : Str :=
  if model_dir ≠ [] then
    let base := posixBasename (original_path.take 1023)
    let sep : Str := if endsWithSlash model_dir then [] else ['/']
    model_dir ++ sep ++ base ++ suffix
  else
    original_path ++ suffix

/-- The diagnostic box printed on stderr when the resolved model file is
not readable: it names the requested path, the computed path and a
remediation copy command (`cp your_model<suffix> <resolved>`). -/
structure NotFoundDiag where
  requested : Str
  computed : Str
  remediation : Str
  deriving DecidableEq

/-- `neuron_shim_resolve_model` (src/model_resolver.c).  Returns the C
return code, the contents written to the output buffer (`none` when the
path did not fit, in which case the buffer holds a truncated string and
the function fails), and the not-found diagnostic if one was emitted.
The filesystem is a parameter: `readable p` models `access(p, R_OK) == 0`. -/
def neuron_shim_resolve_model (original_path suffix model_dir : Str)
    (resolved_len : Nat) (readable : Str → Bool) :
    Int × Option Str × Option NotFoundDiag :=
  let s := resolve_path original_path suffix model_dir
  if resolved_len ≤ s.length then
    (-1, none, none)
  else if readable s then
    (0, some s, none)
  else
    (-1, some s,
      some ⟨original_path, s,
            ("cp your_model".data ++ suffix ++ " ".data ++ s)⟩)

/-- The resolution rule exactly as the specification words it:
`P + S` when the redirect directory is unset/empty, and
`D + "/" + baseName(P) + S` with the separator inserted only when `D`
does not already end in one. -/
def spec_resolve (P S D : Str) : Str :=
  if D = [] then P ++ S
  else (if endsWithSlash D then D else D ++ ['/']) ++ posixBasename P ++ S

/-! ## Configuration (src/config.c) -/

/-- `isspace` in the C locale. -/
def cIsSpace (c : Char) : Bool :=
  c = ' ' ∨ c = '\t' ∨ c = '\n' ∨ c = '\r' ∨ c = '\x0b' ∨ c = '\x0c'

/-- `isdigit`. -/
def cIsDigit (c : Char) : Bool :=
  '0' ≤ c ∧ c ≤ '9'

/-- The digit sequence `atoi` consumes: leading whitespace skipped, an
optional sign, then the maximal run of decimal digits. -/
def atoiDigits (s : Str) : Str :=
  let s1 := s.dropWhile cIsSpace
  let s2 := match s1 with
    | '-' :: r => r
    | '+' :: r => r
    | r => r
  s2.takeWhile cIsDigit

/-- Is the consumed value negated?  (Leading '-' after whitespace.) -/
def atoiNeg (s : Str) : Bool :=
  match s.dropWhile cIsSpace with
  | '-' :: _ => true
  | _ => false

/-- C `atoi`: 0 when no digits are found, otherwise the (signed) value of
the maximal leading digit run. -/
def atoi (s : Str) : Int :=
  let v : Int := (atoiDigits s).foldl
    (fun a c => a * 10 + ((c.toNat - '0'.toNat : Nat) : Int)) 0
  if atoiNeg s then -v else v

/-- The configuration snapshot `NeuronShimConfig` (include/config.h). -/
structure NeuronShimConfig where
  backend : Str
  suffix : Str
  model_dir : Str
  threads : Int
  force_cpu : Bool
  log_level : Int
  deriving DecidableEq

/-- The compiled-in defaults (static initializer of `g_config`). -/
def default_config : NeuronShimConfig :=
  { backend := "auto".data
    suffix := "auto".data
    model_dir := "".data
    threads := 4
    force_cpu := false
    log_level := 3 }

/-- One recognized `key = value` assignment from `parse_config_file`.
`strncpy` into the 32-byte `backend`/`suffix` fields keeps 31 characters,
`snprintf` into the 512-byte `model_dir` keeps 511; numeric fields go
through `atoi`; unrecognized keys leave the snapshot unchanged. -/
def apply_config_entry (cfg : NeuronShimConfig) (key value : Str) :
    NeuronShimConfig :=
  if key = "backend".data then { cfg with backend := value.take 31 }
  else if key = "suffix".data then { cfg with suffix := value.take 31 }
  else if key = "model_dir".data then { cfg with model_dir := value.take 511 }
  else if key = "threads".data then { cfg with threads := atoi value }
  else if key = "force_cpu".data then
    { cfg with force_cpu := (value = "true".data ∨ value = "1".data) }
  else if key = "log_level".data then { cfg with log_level := atoi value }
  else cfg

/-- A config file after the `fgets`/`sscanf` line scan: the sequence of
`key = value` pairs the scan extracted, in file order (comment, blank and
malformed lines produce no pair). -/
abbrev ConfigFile := List (Str × Str)

/-- `parse_config_file`: fold the file's assignments over the snapshot,
later lines overriding earlier ones. -/
def parse_config_file (cfg : NeuronShimConfig) (f : ConfigFile) :
    NeuronShimConfig :=
  f.foldl (fun c kv => apply_config_entry c kv.1 kv.2) cfg

/-- An `fopen` that may fail: `none` when the file is absent. -/
def parse_config_file_opt (cfg : NeuronShimConfig) (f : Option ConfigFile) :
    NeuronShimConfig :=
  match f with
  | none => cfg
  | some f => parse_config_file cfg f

/-- `neuron_shim_config_load`: defaults, then `/etc/neuron-shim.conf`
(`sys_file`), then `./neuron-shim.conf` (`local_file`), then the
environment overrides, in source order.  `env` models `getenv`. -/
def neuron_shim_config_load (sys_file local_file : Option ConfigFile)
    (env : Str → Option Str) : NeuronShimConfig :=
  let c := default_config
  let c := parse_config_file_opt c sys_file
  let c := parse_config_file_opt c local_file
  let c := match env "NEURON_SHIM_BACKEND".data with
    | some v => { c with backend := v.take 31 }
    | none => c
  let c := match env "NEURON_SHIM_SUFFIX".data with
    | some v => { c with suffix := v.take 31 }
    | none => c
  let c := match env "NEURON_SHIM_MODEL_DIR".data with
    | some v => { c with model_dir := v.take 511 }
    | none => c
  let c := match env "NEURON_SHIM_NUM_THREADS".data with
    | some v => { c with threads := atoi v }
    | none => c
  let c := match env "NEURON_SHIM_FORCE_CPU".data with
    | some v => { c with force_cpu := (v = "1".data) }
    | none => c
  let c := match env "NEURON_SHIM_LOG_LEVEL".data with
    | some v => { c with log_level := atoi v }
    | none => c
  c

/-- `neuron_shim_config_get_suffix`: an explicit suffix is returned as-is;
"auto" derives ".tflite" when the configured backend string is "tflite"
and ".onnx" otherwise. -/
def neuron_shim_config_get_suffix (cfg : NeuronShimConfig) : Str :=
  if cfg.suffix ≠ "auto".data then cfg.suffix
  else if cfg.backend = "tflite".data then ".tflite".data
  else ".onnx".data

/-- The last value a file assigns to a key, if any. -/
def lastVal (key : Str) (f : ConfigFile) : Option Str :=
  (f.reverse.find? (fun kv => kv.1 = key)).map (fun kv => kv.2)

/-- The last value a possibly-absent file assigns to a key. -/
def lastValO (key : Str) (f : Option ConfigFile) : Option Str :=
  match f with
  | none => none
  | some f => lastVal key f

/-- Field-by-field source precedence as the specification words it: the
local file's setting if present, else the system file's, else nothing. -/
def fileVal (key : Str) (sys_file local_file : Option ConfigFile) :
    Option Str :=
  match lastValO key local_file with
  | some v => some v
  | none => lastValO key sys_file

/-! ## Backend selector (src/backend_selector.c) -/

/-- The three backend variants. -/
inductive BackendId where
  | onnx
  | tflite
  | stub
  deriving DecidableEq

/-- Which adapters were compiled in (`SHIM_HAS_ONNX` / `SHIM_HAS_TFLITE`). -/
structure BuildFlags where
  hasOnnx : Bool
  hasTflite : Bool
  deriving DecidableEq

/-- Which engine shared libraries `dlopen` can find at run time. -/
structure LibAvail where
  onnxLib : Bool
  tfliteLib : Bool
  deriving DecidableEq

/-- The auto-detection tail of `neuron_shim_select_backend`: probe
onnxruntime first, then tflite, else the stub. -/
def autodetect_backend (bf : BuildFlags) (la : LibAvail) : BackendId :=
  if bf.hasOnnx ∧ la.onnxLib then .onnx
  else if bf.hasTflite ∧ la.tfliteLib then .tflite
  else .stub

/-- `neuron_shim_select_backend`: an explicit known name wins; an unknown
name falls through to auto-detection. -/
def neuron_shim_select_backend (name : Option Str) (bf : BuildFlags)
    (la : LibAvail) : BackendId :=
  match name with
  | some n =>
    if bf.hasOnnx ∧ n = "onnx".data then .onnx
    else if bf.hasTflite ∧ n = "tflite".data then .tflite
    else if n = "stub".data then .stub
    else autodetect_backend bf la
  | none => autodetect_backend bf la

/-- `shim_global_init` (src/shim_runtime.c): select the backend from the
configured name ("auto" meaning none) and resolve the model suffix.
Returns the pair (`g_backend`, `g_suffix`). -/
def shim_global_init (cfg : NeuronShimConfig) (bf : BuildFlags)
    (la : LibAvail) : BackendId × Str :=
  let b := neuron_shim_select_backend
    (if cfg.backend = "auto".data then none else some cfg.backend) bf la
  (b, neuron_shim_config_get_suffix cfg)

/-! ## Stub backend (src/backend_stub.c) -/

/-- `StubContext`: binding tables (32 slots; slots are reached only with
indices below `MAX_TENSORS = 32`, so total functions model the arrays),
tensor counts and the inference counter.  `out_buf i = none` models a
NULL buffer pointer. -/
structure StubContext where
  model_path : Str
  in_size : Nat → Nat
  out_buf : Nat → Option Nat
  out_size : Nat → Nat
  input_count : Nat
  output_count : Nat
  inference_count : Nat

/-- `calloc`-initialized stub context. -/
def stubInit : StubContext :=
  { model_path := []
    in_size := fun _ => 0
    out_buf := fun _ => none
    out_size := fun _ => 0
    input_count := 0
    output_count := 0
    inference_count := 0 }

/-- `stub_load_from_file`: record the path, default to 1 input / 1 output. -/
def stub_load_from_file (c : StubContext) (path : Str) : Int × StubContext :=
  (0, { c with model_path := path.take 1023, input_count := 1,
               output_count := 1 })

/-- `stub_get_input_size`: always succeeds; reports the recorded size when
the index is in range and a size was recorded, else a 1024-byte default. -/
def stub_get_input_size (c : StubContext) (index : Nat) : Int × Nat :=
  (0, if index < 32 ∧ 0 < c.in_size index then c.in_size index else 1024)

/-- `stub_get_output_size`: same shape as the input accessor. -/
def stub_get_output_size (c : StubContext) (index : Nat) : Int × Nat :=
  (0, if index < 32 ∧ 0 < c.out_size index then c.out_size index else 1024)

/-- `stub_set_input`: record the size when the index is in range; always
succeed. -/
def stub_set_input (c : StubContext) (index size : Nat) : Int × StubContext :=
  if index < 32 then
    (0, { c with in_size := fun j => if j = index then size else c.in_size j
                 input_count := max c.input_count (index + 1) })
  else
    (0, c)

/-- `stub_set_output`: record buffer and size when the index is in range;
always succeed (an out-of-range index is silently ignored). -/
def stub_set_output (c : StubContext) (index : Nat) (buf : Option Nat)
    (size : Nat) : Int × StubContext :=
  if index < 32 then
    (0, { c with
          out_buf := fun j => if j = index then buf else c.out_buf j
          out_size := fun j => if j = index then size else c.out_size j
          output_count := max c.output_count (index + 1) })
  else
    (0, c)

/-- One iteration of the zeroing loop in `stub_invoke`: `memset` the
bound buffer at slot `i` when it is non-NULL and has a positive size. -/
def stubZeroStep (c : StubContext) (m : Mem) (i : Nat) : Mem :=
  match c.out_buf i with
  | some addr => if 0 < c.out_size i then memset m addr (c.out_size i) else m
  | none => m

/-- `stub_invoke`: bump the inference counter and zero every bound output
buffer with index below both `output_count` and `MAX_TENSORS`. -/
def stub_invoke (c : StubContext) (m : Mem) : Int × StubContext × Mem :=
  (0, { c with inference_count := c.inference_count + 1 },
   (List.range (min c.output_count 32)).foldl (stubZeroStep c) m)

/-- The adapter calls a caller can direct at a stub context. -/
inductive StubOp where
  | set_input : Nat → Nat → StubOp
  | set_output : Nat → Option Nat → Nat → StubOp
  | load_file : Str → StubOp
  | invoke : StubOp
  deriving DecidableEq

/-- Does an operation load a model? -/
def StubOp.isLoad : StubOp → Bool
  | .load_file _ => true
  | _ => false

/-- Step a stub context and memory by one adapter call. -/
def stubStep (s : StubContext × Mem) (op : StubOp) : StubContext × Mem :=
  match op with
  | .set_input i sz => ((stub_set_input s.1 i sz).2, s.2)
  | .set_output i b sz => ((stub_set_output s.1 i b sz).2, s.2)
  | .load_file p => ((stub_load_from_file s.1 p).2, s.2)
  | .invoke =>
    let r := stub_invoke s.1 s.2
    (r.2.1, r.2.2)

/-- Run a sequence of adapter calls. -/
def stubRun (ops : List StubOp) (s : StubContext × Mem) : StubContext × Mem :=
  ops.foldl stubStep s

/-! ## ONNX backend (src/backend_onnx.c) -/

/-- `OnnxContext`: per-tensor byte sizes recorded by
`populate_tensor_info` (list length is `input_count`/`output_count`,
both capped at 32 by the source), plus user binding tables. -/
structure OnnxContext where
  session : Bool
  inputs : List Nat
  outputs : List Nat
  in_buf : Nat → Option Nat
  in_size : Nat → Nat
  out_buf : Nat → Option Nat
  out_size : Nat → Nat

/-- A fresh ONNX context with no loaded session. -/
def onnxInit : OnnxContext :=
  { session := false, inputs := [], outputs := []
    in_buf := fun _ => none, in_size := fun _ => 0
    out_buf := fun _ => none, out_size := fun _ => 0 }

/-- `onnx_get_input_size`: fail when the index reaches `input_count`. -/
def onnx_get_input_size (c : OnnxContext) (index : Nat) : Int × Option Nat :=
  if c.inputs.length ≤ index then (-1, none)
  else (0, some (c.inputs.getD index 0))

/-- `onnx_get_output_size`: fail when the index reaches `output_count`. -/
def onnx_get_output_size (c : OnnxContext) (index : Nat) : Int × Option Nat :=
  if c.outputs.length ≤ index then (-1, none)
  else (0, some (c.outputs.getD index 0))

/-- `onnx_set_input`: fail when the index reaches `MAX_TENSORS`. -/
def onnx_set_input (c : OnnxContext) (index : Nat) (buf : Option Nat)
    (size : Nat) : Int × OnnxContext :=
  if 32 ≤ index then (-1, c)
  else (0, { c with
             in_buf := fun j => if j = index then buf else c.in_buf j
             in_size := fun j => if j = index then size else c.in_size j })

/-- `onnx_set_output`: fail when the index reaches `MAX_TENSORS`. -/
def onnx_set_output (c : OnnxContext) (index : Nat) (buf : Option Nat)
    (size : Nat) : Int × OnnxContext :=
  if 32 ≤ index then (-1, c)
  else (0, { c with
             out_buf := fun j => if j = index then buf else c.out_buf j
             out_size := fun j => if j = index then size else c.out_size j })

/-- One iteration of the output-copy loop of `onnx_invoke`.  The first
component is the error flag (`ORT_CHECK` on `GetTensorMutableData`
aborts the loop); a copy writes exactly
`min(binding.size, outputs[i].size)` bytes of engine tensor data
(`outData i`) into the bound buffer. -/
def onnxCopyStep (c : OnnxContext) (getOk : Nat → Bool)
    (outData : Nat → Nat → Nat) (s : Bool × Mem) (i : Nat) : Bool × Mem :=
  if s.1 then s
  else
    match c.out_buf i with
    | some addr =>
      if getOk i then
        (false, memcpyN s.2 addr (outData i)
                  (min (c.out_size i) (c.outputs.getD i 0)))
      else (true, s.2)
    | none => s

/-- `onnx_invoke`: fails without a session or when the engine `Run` call
fails (`runOk`); otherwise copies each output tensor into its bound
buffer, clamped to the bound size.  Engine behavior (the `Run` outcome,
per-tensor data and `GetTensorMutableData` outcomes) is parameterized. -/
def onnx_invoke (c : OnnxContext) (runOk : Bool) (getOk : Nat → Bool)
    (outData : Nat → Nat → Nat) (m : Mem) : Int × Mem :=
  if ¬ c.session then (-1, m)
  else if ¬ runOk then (-1, m)
  else
    let r := (List.range c.outputs.length).foldl
      (onnxCopyStep c getOk outData) (false, m)
    (if r.1 then -1 else 0, r.2)

/-! ## TFLite backend (src/backend_tflite.c) -/

/-- The engine-owned interpreter, seen through the narrow C API surface
the adapter uses: the list of output tensor byte sizes
(`TfLiteInterpreterGetOutputTensor` returns NULL for an out-of-range
index, modelled by `List.get?`; `TfLiteTensorByteSize` is the entry). -/
structure TfLiteInterp where
  inputs : List Nat
  outputs : List Nat
  deriving DecidableEq

/-- `TFLiteContext`: optional interpreter plus output binding table. -/
structure TFLiteContext where
  interp : Option TfLiteInterp
  out_buf : Nat → Option Nat
  out_size : Nat → Nat
  output_binding_count : Nat

/-- A fresh TFLite context with no interpreter. -/
def tfliteInit : TFLiteContext :=
  { interp := none, out_buf := fun _ => none
    out_size := fun _ => 0, output_binding_count := 0 }

/-- `tflite_get_input_size`: fail without an interpreter or when the
engine returns no tensor for the index. -/
def tflite_get_input_size (c : TFLiteContext) (index : Nat) :
    Int × Option Nat :=
  match c.interp with
  | none => (-1, none)
  | some it =>
    match it.inputs.get? index with
    | none => (-1, none)
    | some sz => (0, some sz)

/-- `tflite_get_output_size`: same shape as the input accessor. -/
def tflite_get_output_size (c : TFLiteContext) (index : Nat) :
    Int × Option Nat :=
  match c.interp with
  | none => (-1, none)
  | some it =>
    match it.outputs.get? index with
    | none => (-1, none)
    | some sz => (0, some sz)

/-- `tflite_set_output`: fail when the index reaches `MAX_TENSORS`, else
record the binding and always succeed. -/
def tflite_set_output (c : TFLiteContext) (index : Nat) (buf : Option Nat)
    (size : Nat) : Int × TFLiteContext :=
  if 32 ≤ index then (-1, c)
  else (0, { c with
             out_buf := fun j => if j = index then buf else c.out_buf j
             out_size := fun j => if j = index then size else c.out_size j
             output_binding_count :=
               max c.output_binding_count (index + 1) })

/-- One iteration of the output-copy loop of `tflite_invoke`.
`TfLiteTensorCopyToBuffer` (engine code) copies the tensor only when the
given byte count equals the tensor's byte size and otherwise writes
nothing; the adapter ignores its result either way. -/
def tfliteCopyStep (c : TFLiteContext) (it : TfLiteInterp)
    (outData : Nat → Nat → Nat) (m : Mem) (i : Nat) : Mem :=
  match c.out_buf i with
  | none => m
  | some addr =>
    match it.outputs.get? i with
    | none => m
    | some tsize =>
      let csize := min (c.out_size i) tsize
      if csize = tsize then memcpyN m addr (outData i) csize else m

/-- `tflite_invoke`: fails without an interpreter or when the engine's
`Invoke` fails; otherwise copies each bound output, clamped to
`min(bound size, tensor size)`, and returns success regardless of the
copy outcomes. -/
def tflite_invoke (c : TFLiteContext) (invokeOk : Bool)
    (outData : Nat → Nat → Nat) (m : Mem) : Int × Mem :=
  match c.interp with
  | none => (-1, m)
  | some it =>
    if ¬ invokeOk then (-1, m)
    else
      (0, (List.range c.output_binding_count).foldl
            (tfliteCopyStep c it outData) m)

/-! ## Runtime dispatcher (src/shim_runtime.c, include/RuntimeAPI.h) -/

def NEURONRUNTIME_NO_ERROR : Int := 0
def NEURONRUNTIME_BAD_DATA : Int := 1
def NEURONRUNTIME_BAD_STATE : Int := 2
def NEURONRUNTIME_UNEXPECTED_NULL : Int := 3
def NEURONRUNTIME_INCOMPLETE : Int := 4
def NEURONRUNTIME_OUTPUT_INSUFFICIENT : Int := 5
def NEURONRUNTIME_UNAVAILABLE : Int := 6
def NEURONRUNTIME_OP_FAILED : Int := 7
def NEURONRUNTIME_UNMAPPABLE : Int := 8

/-- A live `ShimRuntime` as the dispatcher's null checks see it; its
backend pointer and adapter context are carried by the per-call adapter
result parameters below. -/
def ShimRuntime := Unit

/-- What a dispatcher entry point did: the returned vendor error code and
whether the call was forwarded to the selected adapter. -/
structure DispatchResult where
  code : Int
  adapterCalled : Bool
  deriving DecidableEq

/-- Map an adapter return code at the dispatcher boundary: 0 becomes
NO_ERROR, anything else OP_FAILED. -/
def mapAdapter (ret : Int) : Int :=
  if ret = 0 then NEURONRUNTIME_NO_ERROR else NEURONRUNTIME_OP_FAILED

/-- `NeuronRuntime_release`. -/
def NeuronRuntime_release (rt : Option ShimRuntime) : DispatchResult :=
  match rt with
  | none => ⟨NEURONRUNTIME_UNEXPECTED_NULL, false⟩
  | some _ => ⟨NEURONRUNTIME_NO_ERROR, true⟩

/-- `NeuronRuntime_loadNetworkFromFile`: null checks, then path
resolution (with its readability check), then the adapter load whose
return code is `adapter_ret`.  Also returns the resolver diagnostic. -/
def NeuronRuntime_loadNetworkFromFile (rt : Option ShimRuntime)
    (path : Option Str) (g_suffix model_dir : Str)
    (readable : Str → Bool) (adapter_ret : Int) :
    DispatchResult × Option NotFoundDiag :=
  match rt, path with
  | none, _ => (⟨NEURONRUNTIME_UNEXPECTED_NULL, false⟩, none)
  | some _, none => (⟨NEURONRUNTIME_UNEXPECTED_NULL, false⟩, none)
  | some _, some p =>
    let r := neuron_shim_resolve_model p g_suffix model_dir 1024 readable
    if r.1 ≠ 0 then (⟨NEURONRUNTIME_BAD_DATA, false⟩, r.2.2)
    else (⟨mapAdapter adapter_ret, true⟩, r.2.2)

/-- `NeuronRuntime_loadNetworkFromBuffer`: checks handle and buffer. -/
def NeuronRuntime_loadNetworkFromBuffer (rt : Option ShimRuntime)
    (buffer : Option Nat) (size : Nat) (adapter_ret : Int) :
    DispatchResult :=
  match rt, buffer with
  | none, _ => ⟨NEURONRUNTIME_UNEXPECTED_NULL, false⟩
  | some _, none => ⟨NEURONRUNTIME_UNEXPECTED_NULL, false⟩
  | some _, some _ =>
    let _ := size
    ⟨mapAdapter adapter_ret, true⟩

/-- `NeuronRuntime_setInput`: checks only the handle; the buffer pointer
is forwarded to the adapter unchecked. -/
def NeuronRuntime_setInput (rt : Option ShimRuntime) (index : Nat)
    (buffer : Option Nat) (size : Nat) (adapter_ret : Int) :
    DispatchResult :=
  match rt with
  | none => ⟨NEURONRUNTIME_UNEXPECTED_NULL, false⟩
  | some _ =>
    let _ := (index, buffer, size)
    ⟨mapAdapter adapter_ret, true⟩

/-- `NeuronRuntime_setOutput`: checks only the handle; the buffer pointer
is forwarded to the adapter unchecked. -/
def NeuronRuntime_setOutput (rt : Option ShimRuntime) (index : Nat)
    (buffer : Option Nat) (size : Nat) (adapter_ret : Int) :
    DispatchResult :=
  match rt with
  | none => ⟨NEURONRUNTIME_UNEXPECTED_NULL, false⟩
  | some _ =>
    let _ := (index, buffer, size)
    ⟨mapAdapter adapter_ret, true⟩

/-- `NeuronRuntime_getInputCount`: checks handle and out-pointer. -/
def NeuronRuntime_getInputCount (rt : Option ShimRuntime)
    (count_ptr : Option Unit) (adapter_ret : Int) : DispatchResult :=
  match rt, count_ptr with
  | none, _ => ⟨NEURONRUNTIME_UNEXPECTED_NULL, false⟩
  | some _, none => ⟨NEURONRUNTIME_UNEXPECTED_NULL, false⟩
  | some _, some _ => ⟨mapAdapter adapter_ret, true⟩

/-- `NeuronRuntime_getOutputCount`: checks handle and out-pointer. -/
def NeuronRuntime_getOutputCount (rt : Option ShimRuntime)
    (count_ptr : Option Unit) (adapter_ret : Int) : DispatchResult :=
  match rt, count_ptr with
  | none, _ => ⟨NEURONRUNTIME_UNEXPECTED_NULL, false⟩
  | some _, none => ⟨NEURONRUNTIME_UNEXPECTED_NULL, false⟩
  | some _, some _ => ⟨mapAdapter adapter_ret, true⟩

/-- `NeuronRuntime_getInputSize`: checks handle and out-pointer. -/
def NeuronRuntime_getInputSize (rt : Option ShimRuntime) (index : Nat)
    (size_ptr : Option Unit) (adapter_ret : Int) : DispatchResult :=
  match rt, size_ptr with
  | none, _ => ⟨NEURONRUNTIME_UNEXPECTED_NULL, false⟩
  | some _, none => ⟨NEURONRUNTIME_UNEXPECTED_NULL, false⟩
  | some _, some _ =>
    let _ := index
    ⟨mapAdapter adapter_ret, true⟩

/-- `NeuronRuntime_getOutputSize`: checks handle and out-pointer. -/
def NeuronRuntime_getOutputSize (rt : Option ShimRuntime) (index : Nat)
    (size_ptr : Option Unit) (adapter_ret : Int) : DispatchResult :=
  match rt, size_ptr with
  | none, _ => ⟨NEURONRUNTIME_UNEXPECTED_NULL, false⟩
  | some _, none => ⟨NEURONRUNTIME_UNEXPECTED_NULL, false⟩
  | some _, some _ =>
    let _ := index
    ⟨mapAdapter adapter_ret, true⟩

/-- `NeuronRuntime_getInputInfo`: checks handle and info pointer, then
forwards to the adapter's size accessor. -/
def NeuronRuntime_getInputInfo (rt : Option ShimRuntime) (index : Nat)
    (info_ptr : Option Unit) (adapter_ret : Int) : DispatchResult :=
  match rt, info_ptr with
  | none, _ => ⟨NEURONRUNTIME_UNEXPECTED_NULL, false⟩
  | some _, none => ⟨NEURONRUNTIME_UNEXPECTED_NULL, false⟩
  | some _, some _ =>
    let _ := index
    ⟨mapAdapter adapter_ret, true⟩

/-- `NeuronRuntime_getOutputInfo`: checks handle and info pointer, then
forwards to the adapter's size accessor. -/
def NeuronRuntime_getOutputInfo (rt : Option ShimRuntime) (index : Nat)
    (info_ptr : Option Unit) (adapter_ret : Int) : DispatchResult :=
  match rt, info_ptr with
  | none, _ => ⟨NEURONRUNTIME_UNEXPECTED_NULL, false⟩
  | some _, none => ⟨NEURONRUNTIME_UNEXPECTED_NULL, false⟩
  | some _, some _ =>
    let _ := index
    ⟨mapAdapter adapter_ret, true⟩

/-- `NeuronRuntime_inference`: checks the handle, forwards to the
adapter's `invoke`. -/
def NeuronRuntime_inference (rt : Option ShimRuntime) (adapter_ret : Int) :
    DispatchResult :=
  match rt with
  | none => ⟨NEURONRUNTIME_UNEXPECTED_NULL, false⟩
  | some _ => ⟨mapAdapter adapter_ret, true⟩

/-- `NeuronRuntime_setQoSOption`: ignores both arguments and reports
success; no null check, no adapter call. -/
def NeuronRuntime_setQoSOption (rt : Option ShimRuntime)
    (qos : Option Unit) : DispatchResult :=
  let _ := (rt, qos)
  ⟨NEURONRUNTIME_NO_ERROR, false⟩

/-- `NeuronRuntime_getProfiledQoSData`: ignores the handle, writes an
empty profile when the pointer is non-NULL, and reports success; no null
check, no adapter call. -/
def NeuronRuntime_getProfiledQoSData (rt : Option ShimRuntime)
    (qos : Option Unit) : DispatchResult :=
  let _ := (rt, qos)
  ⟨NEURONRUNTIME_NO_ERROR, false⟩

/-! ## Derived notions used by the theorems -/

/-- A stub context is well-formed when every slot with a recorded output
buffer lies below `output_count` (so the zeroing loop reaches it). -/
def StubInv (c : StubContext) : Prop :=
  ∀ j, c.out_buf j ≠ none → j < c.output_count

/-- The error flag the ONNX output-copy loop threads does not depend on
the memory or the binding sizes. -/
def onnxErrStep (c : OnnxContext) (getOk : Nat → Bool) (b : Bool)
    (i : Nat) : Bool :=
  if b then b
  else match c.out_buf i with
    | some _ => if getOk i then false else true
    | none => b

/-- A live handle for concrete dispatcher calls. -/
def aHandle : ShimRuntime := ()

/-! ## Helper lemmas -/

/-- For paths that fit the 1024-byte `tmp` buffer, the embedded resolver
computes exactly the specification's string. -/
theorem resolve_path_eq_spec (P S D : Str) (hP : P.length ≤ 1023) :
    resolve_path P S D = spec_resolve P S D := by
  have htake : P.take 1023 = P := List.take_of_length_le hP
  unfold resolve_path spec_resolve
  by_cases hD : D = []
  · simp [hD]
  · by_cases hE : endsWithSlash D
    · simp [hD, hE, htake]
    · simp [hD, hE, htake]

/-! ### Claim C1 -/

/-- C1: for every original path `P`, suffix `S` and redirect directory
`D`, `neuron_shim_resolve_model` writes to the output buffer exactly
`P + S` when `D` is empty, and `D + "/" + baseName(P) + S` with the
separator inserted only when `D` does not already end in one — provided
the path fits the resolver's fixed buffers. -/
theorem c1_resolve_exact (P S D : Str) (rl : Nat) (readable : Str → Bool)
    (hP : P.length ≤ 1023)
    (hfit : (resolve_path P S D).length < rl) :
    (neuron_shim_resolve_model P S D rl readable).2.1
      = some (spec_resolve P S D) := by
  have hs := resolve_path_eq_spec P S D hP
  unfold neuron_shim_resolve_model
  rw [if_neg (not_le.2 hfit)]
  by_cases hr : readable (resolve_path P S D)
  · rw [if_pos hr]
    simp [hs]
  · rw [if_neg hr]
    simp [hs]

/-- Witness for C1 at the spec's own example
`resolve("/data/m.dla", ".onnx", "/opt/models/")`. -/
theorem c1_resolve_exact_witness :
    (neuron_shim_resolve_model "/data/m.dla".data ".onnx".data
       "/opt/models/".data 1024 (fun _ => true)).2.1
      = some (spec_resolve "/data/m.dla".data ".onnx".data
                "/opt/models/".data) :=
  c1_resolve_exact _ _ _ _ _ (by decide) (by decide)

/-! ### Claim C2 -/

theorem stubInit_inv : StubInv stubInit := by
  intro j h
  simp [stubInit] at h

theorem stubStep_inv (s : StubContext × Mem) (op : StubOp)
    (hop : op.isLoad = false) (h : StubInv s.1) :
    StubInv (stubStep s op).1 := by
  cases op with
  | set_input i sz =>
    intro j hj
    unfold stubStep stub_set_input at hj ⊢
    by_cases hlt : i < 32
    · simp only [if_pos hlt] at hj ⊢
      exact h j hj
    · simp only [if_neg hlt] at hj ⊢
      exact h j hj
  | set_output i b sz =>
    intro j hj
    unfold stubStep stub_set_output at hj ⊢
    by_cases hlt : i < 32
    · simp only [if_pos hlt] at hj ⊢
      by_cases hji : j = i
      · subst hji
        exact lt_of_lt_of_le (Nat.lt_succ_self j) (le_max_right _ _)
      · simp only [if_neg hji] at hj
        exact lt_of_lt_of_le (h j hj) (le_max_left _ _)
    · simp only [if_neg hlt] at hj ⊢
      exact h j hj
  | load_file p => simp [StubOp.isLoad] at hop
  | invoke =>
    intro j hj
    unfold stubStep stub_invoke at hj ⊢
    exact h j hj

theorem stubRun_inv (ops : List StubOp) (s : StubContext × Mem)
    (hops : (ops.all fun op => !op.isLoad) = true) (h : StubInv s.1) :
    StubInv (stubRun ops s).1 := by
  induction ops generalizing s with
  | nil => exact h
  | cons op rest ih =>
    rw [List.all_cons, Bool.and_eq_true] at hops
    exact ih (stubStep s op) hops.2
      (stubStep_inv s op (by simpa using hops.1) h)

theorem memset_at (m : Mem) (addr n a : Nat) (h1 : addr ≤ a)
    (h2 : a < addr + n) : memset m addr n a = 0 := by
  unfold memset
  rw [if_pos ⟨h1, h2⟩]

theorem stubZeroStep_preserves_zero (c : StubContext) (m : Mem) (i a : Nat)
    (h : m a = 0) : stubZeroStep c m i a = 0 := by
  unfold stubZeroStep
  cases hb : c.out_buf i with
  | none => exact h
  | some addr =>
    show (if 0 < c.out_size i then memset m addr (c.out_size i) else m) a = 0
    by_cases hs : 0 < c.out_size i
    · rw [if_pos hs]
      unfold memset
      by_cases hin : addr ≤ a ∧ a < addr + c.out_size i
      · rw [if_pos hin]
      · rw [if_neg hin]; exact h
    · rw [if_neg hs]; exact h

theorem stubZero_foldl_preserves_zero (c : StubContext) (L : List Nat)
    (m : Mem) (a : Nat) (h : m a = 0) :
    (L.foldl (stubZeroStep c) m) a = 0 := by
  induction L generalizing m with
  | nil => exact h
  | cons j rest ih =>
    exact ih (stubZeroStep c m j) (stubZeroStep_preserves_zero c m j a h)

theorem stubZero_foldl_hits (c : StubContext) (L : List Nat) (m : Mem)
    (i addr a : Nat) (hi : i ∈ L) (hb : c.out_buf i = some addr)
    (h1 : addr ≤ a) (h2 : a < addr + c.out_size i) :
    (L.foldl (stubZeroStep c) m) a = 0 := by
  induction L generalizing m with
  | nil => cases hi
  | cons j rest ih =>
    rw [List.foldl_cons]
    rcases List.mem_cons.1 hi with hji | hmem
    · subst hji
      apply stubZero_foldl_preserves_zero
      have hpos : 0 < c.out_size i :=
        Nat.pos_of_lt_add_right (lt_of_le_of_lt h1 h2)
      simp only [stubZeroStep, hb, if_pos hpos]
      exact memset_at m addr _ a h1 h2
    · exact ih (stubZeroStep c m j) hmem

/-- Counterexample to C2 as stated: after loading a model, a buffer at
address 100 of 4 bytes passed to `set_output` at index 32 is accepted
(the call succeeds) but a subsequent `invoke` leaves its contents (all
bytes 1) untouched instead of zero-filling it. -/
theorem c2_counterexample :
    (stubRun [StubOp.load_file "m".data,
              StubOp.set_output 32 (some 100) 4,
              StubOp.invoke] (stubInit, fun _ => 1)).2 100 = 1 ∧
    (1 : Nat) ≠ 0 :=
  ⟨rfl, by decide⟩

/-- C2 (amended): for any sequence of stub adapter calls without an
intervening model load, after an `invoke` every output buffer currently
bound via `set_output` at an index within the table capacity (< 32) is
entirely zero-filled over its bound size, regardless of prior memory
contents and of how many invokes preceded. -/
theorem c2_stub_invoke_zeroes (ops : List StubOp) (m0 : Mem)
    (i addr size a : Nat)
    (hops : (ops.all fun op => !op.isLoad) = true)
    (hi : i < 32)
    (hb : ((stubRun ops (stubInit, m0)).1).out_buf i = some addr)
    (hs : ((stubRun ops (stubInit, m0)).1).out_size i = size)
    (h1 : addr ≤ a) (h2 : a < addr + size) :
    (stubRun (ops ++ [StubOp.invoke]) (stubInit, m0)).2 a = 0 := by
  have hsplit : stubRun (ops ++ [StubOp.invoke]) (stubInit, m0)
      = stubStep (stubRun ops (stubInit, m0)) StubOp.invoke := by
    unfold stubRun
    rw [List.foldl_append]
    rfl
  rw [hsplit]
  have hinv : StubInv (stubRun ops (stubInit, m0)).1 :=
    stubRun_inv ops (stubInit, m0) hops stubInit_inv
  have hcount : i < (stubRun ops (stubInit, m0)).1.output_count :=
    hinv i (by rw [hb]; simp)
  show ((List.range _).foldl (stubZeroStep _) _) a = 0
  apply stubZero_foldl_hits _ _ _ i addr a
  · exact List.mem_range.2 (lt_min hcount hi)
  · exact hb
  · exact h1
  · rw [hs]; exact h2

/-- Witness for the amended C2: binding a 2-byte buffer at address 50,
slot 0, then invoking zeroes byte 50. -/
theorem c2_stub_invoke_zeroes_witness :
    (stubRun ([StubOp.set_output 0 (some 50) 2] ++ [StubOp.invoke])
       (stubInit, fun _ => 7)).2 50 = 0 :=
  c2_stub_invoke_zeroes [StubOp.set_output 0 (some 50) 2] (fun _ => 7)
    0 50 2 50 (by decide) (by decide) rfl rfl (by decide) (by decide)

/-! ### Claim C3 -/

theorem apply_entry_backend (c : NeuronShimConfig) (k v : Str) :
    (apply_config_entry c k v).backend
      = if k = "backend".data then v.take 31 else c.backend := by
  unfold apply_config_entry
  split_ifs <;> simp_all

theorem apply_entry_suffix (c : NeuronShimConfig) (k v : Str) :
    (apply_config_entry c k v).suffix
      = if k = "suffix".data then v.take 31 else c.suffix := by
  unfold apply_config_entry
  split_ifs <;> simp_all

theorem apply_entry_model_dir (c : NeuronShimConfig) (k v : Str) :
    (apply_config_entry c k v).model_dir
      = if k = "model_dir".data then v.take 511 else c.model_dir := by
  unfold apply_config_entry
  split_ifs <;> simp_all

theorem apply_entry_threads (c : NeuronShimConfig) (k v : Str) :
    (apply_config_entry c k v).threads
      = if k = "threads".data then atoi v else c.threads := by
  unfold apply_config_entry
  split_ifs <;> simp_all

theorem apply_entry_force_cpu (c : NeuronShimConfig) (k v : Str) :
    (apply_config_entry c k v).force_cpu
      = if k = "force_cpu".data
        then decide (v = "true".data ∨ v = "1".data)
        else c.force_cpu := by
  unfold apply_config_entry
  split_ifs <;> simp_all

theorem apply_entry_log_level (c : NeuronShimConfig) (k v : Str) :
    (apply_config_entry c k v).log_level
      = if k = "log_level".data then atoi v else c.log_level := by
  unfold apply_config_entry
  split_ifs <;> simp_all

theorem lastVal_append_singleton (key : Str) (f : ConfigFile) (k v : Str) :
    lastVal key (f ++ [(k, v)])
      = if k = key then some v else lastVal key f := by
  unfold lastVal
  rw [List.reverse_append,
      show (([(k, v)] : ConfigFile).reverse ++ f.reverse)
        = (k, v) :: f.reverse by simp]
  by_cases h : k = key
  · rw [if_pos h]
    rw [List.find?_cons_of_pos _ (by simpa using h)]
    rfl
  · rw [if_neg h]
    rw [List.find?_cons_of_neg _ (by simpa using h)]

theorem parse_foldl_append (cfg : NeuronShimConfig) (f : ConfigFile)
    (k v : Str) :
    parse_config_file cfg (f ++ [(k, v)])
      = apply_config_entry (parse_config_file cfg f) k v := by
  unfold parse_config_file
  rw [List.foldl_append]
  rfl

theorem parse_backend (cfg : NeuronShimConfig) (f : ConfigFile) :
    (parse_config_file cfg f).backend
      = match lastVal "backend".data f with
        | some v => v.take 31
        | none => cfg.backend := by
  induction f using List.reverseRecOn with
  | nil => simp [parse_config_file, lastVal]
  | append_singleton f x ih =>
    rcases x with ⟨k, v⟩
    rw [parse_foldl_append, lastVal_append_singleton, apply_entry_backend, ih]
    by_cases h : k = "backend".data
    · simp [h]
    · simp [h]

theorem parse_suffix (cfg : NeuronShimConfig) (f : ConfigFile) :
    (parse_config_file cfg f).suffix
      = match lastVal "suffix".data f with
        | some v => v.take 31
        | none => cfg.suffix := by
  induction f using List.reverseRecOn with
  | nil => simp [parse_config_file, lastVal]
  | append_singleton f x ih =>
    rcases x with ⟨k, v⟩
    rw [parse_foldl_append, lastVal_append_singleton, apply_entry_suffix, ih]
    by_cases h : k = "suffix".data
    · simp [h]
    · simp [h]

theorem parse_model_dir (cfg : NeuronShimConfig) (f : ConfigFile) :
    (parse_config_file cfg f).model_dir
      = match lastVal "model_dir".data f with
        | some v => v.take 511
        | none => cfg.model_dir := by
  induction f using List.reverseRecOn with
  | nil => simp [parse_config_file, lastVal]
  | append_singleton f x ih =>
    rcases x with ⟨k, v⟩
    rw [parse_foldl_append, lastVal_append_singleton, apply_entry_model_dir,
        ih]
    by_cases h : k = "model_dir".data
    · simp [h]
    · simp [h]

theorem parse_threads (cfg : NeuronShimConfig) (f : ConfigFile) :
    (parse_config_file cfg f).threads
      = match lastVal "threads".data f with
        | some v => atoi v
        | none => cfg.threads := by
  induction f using List.reverseRecOn with
  | nil => simp [parse_config_file, lastVal]
  | append_singleton f x ih =>
    rcases x with ⟨k, v⟩
    rw [parse_foldl_append, lastVal_append_singleton, apply_entry_threads, ih]
    by_cases h : k = "threads".data
    · simp [h]
    · simp [h]

theorem parse_force_cpu (cfg : NeuronShimConfig) (f : ConfigFile) :
    (parse_config_file cfg f).force_cpu
      = match lastVal "force_cpu".data f with
        | some v => decide (v = "true".data ∨ v = "1".data)
        | none => cfg.force_cpu := by
  induction f using List.reverseRecOn with
  | nil => simp [parse_config_file, lastVal]
  | append_singleton f x ih =>
    rcases x with ⟨k, v⟩
    rw [parse_foldl_append, lastVal_append_singleton, apply_entry_force_cpu,
        ih]
    by_cases h : k = "force_cpu".data
    · simp [h]
    · simp [h]

theorem parse_log_level (cfg : NeuronShimConfig) (f : ConfigFile) :
    (parse_config_file cfg f).log_level
      = match lastVal "log_level".data f with
        | some v => atoi v
        | none => cfg.log_level := by
  induction f using List.reverseRecOn with
  | nil => simp [parse_config_file, lastVal]
  | append_singleton f x ih =>
    rcases x with ⟨k, v⟩
    rw [parse_foldl_append, lastVal_append_singleton, apply_entry_log_level,
        ih]
    by_cases h : k = "log_level".data
    · simp [h]
    · simp [h]

theorem files_backend (sysf localf : Option ConfigFile) :
    (parse_config_file_opt (parse_config_file_opt default_config sysf)
        localf).backend
      = match fileVal "backend".data sysf localf with
        | some v => v.take 31
        | none => "auto".data := by
  cases localf with
  | none =>
    cases sysf with
    | none => rfl
    | some sf =>
      simp only [parse_config_file_opt, fileVal, lastValO, parse_backend]
      cases lastVal "backend".data sf <;> rfl
  | some lf =>
    simp only [parse_config_file_opt, fileVal, lastValO, parse_backend]
    cases lastVal "backend".data lf with
    | some v => rfl
    | none =>
      cases sysf with
      | none => rfl
      | some sf =>
        simp only [parse_config_file_opt, lastValO, parse_backend]
        cases lastVal "backend".data sf <;> rfl

theorem files_suffix (sysf localf : Option ConfigFile) :
    (parse_config_file_opt (parse_config_file_opt default_config sysf)
        localf).suffix
      = match fileVal "suffix".data sysf localf with
        | some v => v.take 31
        | none => "auto".data := by
  cases localf with
  | none =>
    cases sysf with
    | none => rfl
    | some sf =>
      simp only [parse_config_file_opt, fileVal, lastValO, parse_suffix]
      cases lastVal "suffix".data sf <;> rfl
  | some lf =>
    simp only [parse_config_file_opt, fileVal, lastValO, parse_suffix]
    cases lastVal "suffix".data lf with
    | some v => rfl
    | none =>
      cases sysf with
      | none => rfl
      | some sf =>
        simp only [parse_config_file_opt, lastValO, parse_suffix]
        cases lastVal "suffix".data sf <;> rfl

theorem files_model_dir (sysf localf : Option ConfigFile) :
    (parse_config_file_opt (parse_config_file_opt default_config sysf)
        localf).model_dir
      = match fileVal "model_dir".data sysf localf with
        | some v => v.take 511
        | none => [] := by
  cases localf with
  | none =>
    cases sysf with
    | none => rfl
    | some sf =>
      simp only [parse_config_file_opt, fileVal, lastValO, parse_model_dir]
      cases lastVal "model_dir".data sf <;> rfl
  | some lf =>
    simp only [parse_config_file_opt, fileVal, lastValO, parse_model_dir]
    cases lastVal "model_dir".data lf with
    | some v => rfl
    | none =>
      cases sysf with
      | none => rfl
      | some sf =>
        simp only [parse_config_file_opt, lastValO, parse_model_dir]
        cases lastVal "model_dir".data sf <;> rfl

theorem files_threads (sysf localf : Option ConfigFile) :
    (parse_config_file_opt (parse_config_file_opt default_config sysf)
        localf).threads
      = match fileVal "threads".data sysf localf with
        | some v => atoi v
        | none => 4 := by
  cases localf with
  | none =>
    cases sysf with
    | none => rfl
    | some sf =>
      simp only [parse_config_file_opt, fileVal, lastValO, parse_threads]
      cases lastVal "threads".data sf <;> rfl
  | some lf =>
    simp only [parse_config_file_opt, fileVal, lastValO, parse_threads]
    cases lastVal "threads".data lf with
    | some v => rfl
    | none =>
      cases sysf with
      | none => rfl
      | some sf =>
        simp only [parse_config_file_opt, lastValO, parse_threads]
        cases lastVal "threads".data sf <;> rfl

theorem files_force_cpu (sysf localf : Option ConfigFile) :
    (parse_config_file_opt (parse_config_file_opt default_config sysf)
        localf).force_cpu
      = match fileVal "force_cpu".data sysf localf with
        | some v => decide (v = "true".data ∨ v = "1".data)
        | none => false := by
  cases localf with
  | none =>
    cases sysf with
    | none => rfl
    | some sf =>
      simp only [parse_config_file_opt, fileVal, lastValO, parse_force_cpu]
      cases lastVal "force_cpu".data sf <;> rfl
  | some lf =>
    simp only [parse_config_file_opt, fileVal, lastValO, parse_force_cpu]
    cases lastVal "force_cpu".data lf with
    | some v => rfl
    | none =>
      cases sysf with
      | none => rfl
      | some sf =>
        simp only [parse_config_file_opt, lastValO, parse_force_cpu]
        cases lastVal "force_cpu".data sf <;> rfl

theorem files_log_level (sysf localf : Option ConfigFile) :
    (parse_config_file_opt (parse_config_file_opt default_config sysf)
        localf).log_level
      = match fileVal "log_level".data sysf localf with
        | some v => atoi v
        | none => 3 := by
  cases localf with
  | none =>
    cases sysf with
    | none => rfl
    | some sf =>
      simp only [parse_config_file_opt, fileVal, lastValO, parse_log_level]
      cases lastVal "log_level".data sf <;> rfl
  | some lf =>
    simp only [parse_config_file_opt, fileVal, lastValO, parse_log_level]
    cases lastVal "log_level".data lf with
    | some v => rfl
    | none =>
      cases sysf with
      | none => rfl
      | some sf =>
        simp only [parse_config_file_opt, lastValO, parse_log_level]
        cases lastVal "log_level".data sf <;> rfl

/-- C3: for every configuration field, the snapshot produced by
`neuron_shim_config_load` obeys strict field-by-field precedence
environment > local file (`./neuron-shim.conf`) > system file
(`/etc/neuron-shim.conf`) > compiled default; in particular a field
present both in an environment variable and in a file takes its
(field-width-truncated / parsed) value from the environment. -/
theorem c3_config_precedence (sysf localf : Option ConfigFile)
    (env : Str → Option Str) :
    ((neuron_shim_config_load sysf localf env).backend
       = match env "NEURON_SHIM_BACKEND".data with
         | some v => v.take 31
         | none => match fileVal "backend".data sysf localf with
           | some v => v.take 31
           | none => "auto".data)
    ∧ ((neuron_shim_config_load sysf localf env).suffix
       = match env "NEURON_SHIM_SUFFIX".data with
         | some v => v.take 31
         | none => match fileVal "suffix".data sysf localf with
           | some v => v.take 31
           | none => "auto".data)
    ∧ ((neuron_shim_config_load sysf localf env).model_dir
       = match env "NEURON_SHIM_MODEL_DIR".data with
         | some v => v.take 511
         | none => match fileVal "model_dir".data sysf localf with
           | some v => v.take 511
           | none => [])
    ∧ ((neuron_shim_config_load sysf localf env).threads
       = match env "NEURON_SHIM_NUM_THREADS".data with
         | some v => atoi v
         | none => match fileVal "threads".data sysf localf with
           | some v => atoi v
           | none => 4)
    ∧ ((neuron_shim_config_load sysf localf env).force_cpu
       = match env "NEURON_SHIM_FORCE_CPU".data with
         | some v => decide (v = "1".data)
         | none => match fileVal "force_cpu".data sysf localf with
           | some v => decide (v = "true".data ∨ v = "1".data)
           | none => false)
    ∧ ((neuron_shim_config_load sysf localf env).log_level
       = match env "NEURON_SHIM_LOG_LEVEL".data with
         | some v => atoi v
         | none => match fileVal "log_level".data sysf localf with
           | some v => atoi v
           | none => 3) := by
  rcases hB : env "NEURON_SHIM_BACKEND".data with _ | vB <;>
    rcases hS : env "NEURON_SHIM_SUFFIX".data with _ | vS <;>
      rcases hM : env "NEURON_SHIM_MODEL_DIR".data with _ | vM <;>
        rcases hT : env "NEURON_SHIM_NUM_THREADS".data with _ | vT <;>
          rcases hF : env "NEURON_SHIM_FORCE_CPU".data with _ | vF <;>
            rcases hL : env "NEURON_SHIM_LOG_LEVEL".data with _ | vL <;>
              simp [neuron_shim_config_load, hB, hS, hM, hT, hF, hL,
                    files_backend, files_suffix, files_model_dir,
                    files_threads, files_force_cpu, files_log_level]

/-! ### Claim C4 -/

/-- Counterexample to C4 as stated: with backend setting "auto", suffix
setting "auto", both adapters compiled in, the onnxruntime library
absent and the tflite library present, auto-detection selects the tflite
backend yet the resolved suffix is not ".tflite". -/
theorem c4_counterexample :
    (shim_global_init default_config ⟨true, true⟩ ⟨false, true⟩).1
        = BackendId.tflite
    ∧ (shim_global_init default_config ⟨true, true⟩ ⟨false, true⟩).2
        ≠ ".tflite".data := by
  constructor
  · rfl
  · decide

/-- C4 (amended): when the configuration suffix is "auto", the resolved
model suffix is derived from the configured backend string, not from the
backend actually selected: it is ".tflite" exactly when the backend
setting is the string "tflite" and ".onnx" otherwise — in particular it
stays ".onnx" whenever the backend setting is "auto", whichever backend
auto-detection then selects. -/
theorem c4_auto_suffix (cfg : NeuronShimConfig) (bf : BuildFlags)
    (la : LibAvail) (h : cfg.suffix = "auto".data) :
    (shim_global_init cfg bf la).2
      = (if cfg.backend = "tflite".data
         then ".tflite".data else ".onnx".data) := by
  unfold shim_global_init neuron_shim_config_get_suffix
  simp [h]

/-- Witness for the amended C4 at the default configuration with the
tflite backend auto-selected. -/
theorem c4_auto_suffix_witness :
    (shim_global_init default_config ⟨true, true⟩ ⟨false, true⟩).2
      = (if default_config.backend = "tflite".data
         then ".tflite".data else ".onnx".data) :=
  c4_auto_suffix default_config ⟨true, true⟩ ⟨false, true⟩ (by decide)

/-! ### Claim C5 -/

/-- Counterexample to C5 as stated: `NeuronRuntime_setQoSOption` called
on a null handle returns NO_ERROR, not UNEXPECTED_NULL. -/
theorem c5_counterexample :
    NeuronRuntime_setQoSOption none none
        = ⟨NEURONRUNTIME_NO_ERROR, false⟩
    ∧ NEURONRUNTIME_NO_ERROR ≠ NEURONRUNTIME_UNEXPECTED_NULL := by
  constructor
  · rfl
  · decide

/-- C5 (amended): the dispatcher's null checks run before any adapter
call and yield UNEXPECTED_NULL for a null handle on every entry point
except the QoS pair, and for a null model path (`loadNetworkFromFile`),
null model buffer (`loadNetworkFromBuffer`) and null count/size/info
out-pointers; but `setInput`/`setOutput` check only the handle — a null
data buffer is forwarded to the adapter — and `setQoSOption` /
`getProfiledQoSData` perform no handle check at all, returning NO_ERROR
even on a null handle. -/
theorem c5_null_checks :
    (NeuronRuntime_release none = ⟨NEURONRUNTIME_UNEXPECTED_NULL, false⟩)
    ∧ (∀ p S D rd ret,
        (NeuronRuntime_loadNetworkFromFile none p S D rd ret).1
          = ⟨NEURONRUNTIME_UNEXPECTED_NULL, false⟩)
    ∧ (∀ h S D rd ret,
        (NeuronRuntime_loadNetworkFromFile (some h) none S D rd ret).1
          = ⟨NEURONRUNTIME_UNEXPECTED_NULL, false⟩)
    ∧ (∀ b s ret, NeuronRuntime_loadNetworkFromBuffer none b s ret
          = ⟨NEURONRUNTIME_UNEXPECTED_NULL, false⟩)
    ∧ (∀ h s ret, NeuronRuntime_loadNetworkFromBuffer (some h) none s ret
          = ⟨NEURONRUNTIME_UNEXPECTED_NULL, false⟩)
    ∧ (∀ i b s ret, NeuronRuntime_setInput none i b s ret
          = ⟨NEURONRUNTIME_UNEXPECTED_NULL, false⟩)
    ∧ (∀ h i s ret, NeuronRuntime_setInput (some h) i none s ret
          = ⟨mapAdapter ret, true⟩)
    ∧ (∀ i b s ret, NeuronRuntime_setOutput none i b s ret
          = ⟨NEURONRUNTIME_UNEXPECTED_NULL, false⟩)
    ∧ (∀ h i s ret, NeuronRuntime_setOutput (some h) i none s ret
          = ⟨mapAdapter ret, true⟩)
    ∧ (∀ cp ret, NeuronRuntime_getInputCount none cp ret
          = ⟨NEURONRUNTIME_UNEXPECTED_NULL, false⟩)
    ∧ (∀ h ret, NeuronRuntime_getInputCount (some h) none ret
          = ⟨NEURONRUNTIME_UNEXPECTED_NULL, false⟩)
    ∧ (∀ cp ret, NeuronRuntime_getOutputCount none cp ret
          = ⟨NEURONRUNTIME_UNEXPECTED_NULL, false⟩)
    ∧ (∀ h ret, NeuronRuntime_getOutputCount (some h) none ret
          = ⟨NEURONRUNTIME_UNEXPECTED_NULL, false⟩)
    ∧ (∀ i sp ret, NeuronRuntime_getInputSize none i sp ret
          = ⟨NEURONRUNTIME_UNEXPECTED_NULL, false⟩)
    ∧ (∀ h i ret, NeuronRuntime_getInputSize (some h) i none ret
          = ⟨NEURONRUNTIME_UNEXPECTED_NULL, false⟩)
    ∧ (∀ i sp ret, NeuronRuntime_getOutputSize none i sp ret
          = ⟨NEURONRUNTIME_UNEXPECTED_NULL, false⟩)
    ∧ (∀ h i ret, NeuronRuntime_getOutputSize (some h) i none ret
          = ⟨NEURONRUNTIME_UNEXPECTED_NULL, false⟩)
    ∧ (∀ i ip ret, NeuronRuntime_getInputInfo none i ip ret
          = ⟨NEURONRUNTIME_UNEXPECTED_NULL, false⟩)
    ∧ (∀ h i ret, NeuronRuntime_getInputInfo (some h) i none ret
          = ⟨NEURONRUNTIME_UNEXPECTED_NULL, false⟩)
    ∧ (∀ i ip ret, NeuronRuntime_getOutputInfo none i ip ret
          = ⟨NEURONRUNTIME_UNEXPECTED_NULL, false⟩)
    ∧ (∀ h i ret, NeuronRuntime_getOutputInfo (some h) i none ret
          = ⟨NEURONRUNTIME_UNEXPECTED_NULL, false⟩)
    ∧ (∀ ret, NeuronRuntime_inference none ret
          = ⟨NEURONRUNTIME_UNEXPECTED_NULL, false⟩)
    ∧ (∀ rt q, NeuronRuntime_setQoSOption rt q
          = ⟨NEURONRUNTIME_NO_ERROR, false⟩)
    ∧ (∀ rt q, NeuronRuntime_getProfiledQoSData rt q
          = ⟨NEURONRUNTIME_NO_ERROR, false⟩) :=
  ⟨rfl,
   fun _p _S _D _rd _ret => rfl,
   fun _h _S _D _rd _ret => rfl,
   fun _b _s _ret => rfl,
   fun _h _s _ret => rfl,
   fun _i _b _s _ret => rfl,
   fun _h _i _s _ret => rfl,
   fun _i2 _b2 _s2 _ret2 => rfl,
   fun _h2 _i2 _s2 _ret2 => rfl,
   fun _cp _ret => rfl,
   fun _h _ret => rfl,
   fun _cp2 _ret2 => rfl,
   fun _h2 _ret2 => rfl,
   fun _i _sp _ret => rfl,
   fun _h _i _ret => rfl,
   fun _i2 _sp2 _ret2 => rfl,
   fun _h2 _i2 _ret2 => rfl,
   fun _i _ip _ret => rfl,
   fun _h3 _i3 _ret3 => rfl,
   fun _i4 _ip4 _ret4 => rfl,
   fun _h4 _i4 _ret4 => rfl,
   fun _ret => rfl,
   fun _rt _q => rfl,
   fun _rt2 _q2 => rfl⟩

/-! ### Claim C6 -/

/-- Counterexample to C6 as stated: after the stub loads a model it has
one input tensor, yet `stub_get_input_size` at the out-of-range index 5
returns success (0) with a fabricated 1024-byte size instead of a
failure signal. -/
theorem c6_counterexample :
    ((stubRun [StubOp.load_file "m".data]
        (stubInit, fun _ => 0)).1.input_count = 1)
    ∧ (stub_get_input_size
        (stubRun [StubOp.load_file "m".data] (stubInit, fun _ => 0)).1 5)
        = (0, 1024) := by
  constructor
  · rfl
  · rfl

/-- C6 (amended): the onnx accessors fail (-1) whenever the index
reaches the loaded model's tensor count, and the tflite accessors fail
whenever the engine reports no tensor at the index (which is what it
does for an out-of-range index); the stub accessors, however, always
report success, answering with a recorded size or a 1024-byte default. -/
theorem c6_index_bounds :
    (∀ (c : OnnxContext) (i : Nat), c.inputs.length ≤ i →
        (onnx_get_input_size c i).1 = -1)
    ∧ (∀ (c : OnnxContext) (i : Nat), c.outputs.length ≤ i →
        (onnx_get_output_size c i).1 = -1)
    ∧ (∀ (c : TFLiteContext) (it : TfLiteInterp) (i : Nat),
        c.interp = some it → it.inputs.length ≤ i →
        (tflite_get_input_size c i).1 = -1)
    ∧ (∀ (c : TFLiteContext) (it : TfLiteInterp) (i : Nat),
        c.interp = some it → it.outputs.length ≤ i →
        (tflite_get_output_size c i).1 = -1)
    ∧ (∀ (c : StubContext) (i : Nat),
        (stub_get_input_size c i).1 = 0 ∧ (stub_get_output_size c i).1 = 0) := by
  refine ⟨?_, ?_, ?_, ?_, ?_⟩
  · intro c i h
    unfold onnx_get_input_size
    rw [if_pos h]
  · intro c i h
    unfold onnx_get_output_size
    rw [if_pos h]
  · intro c it i hit h
    have hn : it.inputs.get? i = none := List.get?_eq_none.2 h
    unfold tflite_get_input_size
    rw [hit]
    show (match it.inputs.get? i with
          | none => ((-1 : Int), (none : Option Nat))
          | some sz => (0, some sz)).1 = -1
    rw [hn]
  · intro c it i hit h
    have hn : it.outputs.get? i = none := List.get?_eq_none.2 h
    unfold tflite_get_output_size
    rw [hit]
    show (match it.outputs.get? i with
          | none => ((-1 : Int), (none : Option Nat))
          | some sz => (0, some sz)).1 = -1
    rw [hn]
  · intro c i
    exact ⟨rfl, rfl⟩

/-- Witness for the amended C6: an onnx context with no loaded tensors
rejects index 0. -/
theorem c6_index_bounds_witness :
    (onnx_get_input_size onnxInit 0).1 = -1 :=
  c6_index_bounds.1 onnxInit 0 (by decide)

/-! ### Claim C7 -/

/-- Counterexample to C7 as stated: a local config file with
`threads = abc` yields a snapshot with threads = 0, not the compiled
default 4. -/
theorem c7_counterexample :
    (neuron_shim_config_load none (some [("threads".data, "abc".data)])
        (fun _ => none)).threads = 0
    ∧ default_config.threads = 4
    ∧ (0 : Int) ≠ 4 := by
  refine ⟨?_, rfl, by decide⟩
  rfl

/-- C7 (amended): a numeric configuration value that fails to parse as a
number leaves the field at `atoi`'s failure result 0 — not at the
compiled-in default — whether it arrives through a config file or
through an environment variable. -/
theorem c7_unparsed_numeric (v : Str) (hv : atoiDigits v = []) :
    atoi v = 0
    ∧ (neuron_shim_config_load none
        (some [("threads".data, v), ("log_level".data, v)])
        (fun _ => none)).threads = 0
    ∧ (neuron_shim_config_load none
        (some [("threads".data, v), ("log_level".data, v)])
        (fun _ => none)).log_level = 0
    ∧ (neuron_shim_config_load none none
        (fun k => if k = "NEURON_SHIM_NUM_THREADS".data
                    ∨ k = "NEURON_SHIM_LOG_LEVEL".data
                  then some v else none)).threads = 0
    ∧ (neuron_shim_config_load none none
        (fun k => if k = "NEURON_SHIM_NUM_THREADS".data
                    ∨ k = "NEURON_SHIM_LOG_LEVEL".data
                  then some v else none)).log_level = 0 := by
  have h0 : atoi v = 0 := by
    unfold atoi
    rw [hv]
    simp
  refine ⟨h0, ?_, ?_, ?_, ?_⟩ <;>
    simp [neuron_shim_config_load, parse_config_file_opt, parse_config_file,
          apply_config_entry, h0, default_config]

/-- Witness for the amended C7 at the unparseable value "abc". -/
theorem c7_unparsed_numeric_witness :
    atoi "abc".data = 0
    ∧ (neuron_shim_config_load none
        (some [("threads".data, "abc".data), ("log_level".data, "abc".data)])
        (fun _ => none)).threads = 0
    ∧ (neuron_shim_config_load none
        (some [("threads".data, "abc".data), ("log_level".data, "abc".data)])
        (fun _ => none)).log_level = 0
    ∧ (neuron_shim_config_load none none
        (fun k => if k = "NEURON_SHIM_NUM_THREADS".data
                    ∨ k = "NEURON_SHIM_LOG_LEVEL".data
                  then some "abc".data else none)).threads = 0
    ∧ (neuron_shim_config_load none none
        (fun k => if k = "NEURON_SHIM_NUM_THREADS".data
                    ∨ k = "NEURON_SHIM_LOG_LEVEL".data
                  then some "abc".data else none)).log_level = 0 :=
  c7_unparsed_numeric "abc".data (by decide)

/-! ### Claim C8 -/

/-- C8: for every valid handle and path whose resolved model file is not
readable, `NeuronRuntime_loadNetworkFromFile` returns BAD_DATA without
calling the adapter, and the resolver emits a diagnostic naming the
requested path, the computed path, and the remediation copy command —
regardless of whether the original, unsuffixed path exists (`readable`
is unconstrained away from the computed path). -/
theorem c8_missing_model (h : ShimRuntime) (P S D : Str)
    (readable : Str → Bool) (ret : Int)
    (hfit : (resolve_path P S D).length < 1024)
    (hmiss : readable (resolve_path P S D) = false) :
    NeuronRuntime_loadNetworkFromFile (some h) (some P) S D readable ret
      = (⟨NEURONRUNTIME_BAD_DATA, false⟩,
         some ⟨P, resolve_path P S D,
               "cp your_model".data ++ S ++ " ".data
                 ++ resolve_path P S D⟩) := by
  have hr : neuron_shim_resolve_model P S D 1024 readable
      = (-1, some (resolve_path P S D),
         some ⟨P, resolve_path P S D,
               "cp your_model".data ++ S ++ " ".data
                 ++ resolve_path P S D⟩) := by
    unfold neuron_shim_resolve_model
    rw [if_neg (not_le.2 hfit)]
    rw [if_neg (by simp [hmiss])]
  simp only [NeuronRuntime_loadNetworkFromFile]
  rw [hr]
  simp

/-- Witness for C8: a missing "/data/m.dla.onnx" with no redirect
directory produces BAD_DATA and the full diagnostic. -/
theorem c8_missing_model_witness :
    NeuronRuntime_loadNetworkFromFile (some aHandle) (some "/data/m.dla".data)
        ".onnx".data [] (fun _ => false) 0
      = (⟨NEURONRUNTIME_BAD_DATA, false⟩,
         some ⟨"/data/m.dla".data,
               resolve_path "/data/m.dla".data ".onnx".data [],
               "cp your_model".data ++ ".onnx".data ++ " ".data
                 ++ resolve_path "/data/m.dla".data ".onnx".data []⟩) :=
  c8_missing_model aHandle "/data/m.dla".data ".onnx".data [] (fun _ => false)
    0 (by decide) (by decide)

/-! ### Claim C9 -/

/-- If every step of a memory fold can change address `a` only when
`Q` holds of its index, a changed `a` in the fold result names an index
satisfying `Q`. -/
theorem foldl_mem_frame (step : Mem → Nat → Mem) (L : List Nat) (m : Mem)
    (a : Nat) (Q : Nat → Prop)
    (hstep : ∀ mm i, i ∈ L → step mm i a ≠ mm a → Q i) :
    (L.foldl step m) a ≠ m a → ∃ i ∈ L, Q i := by
  induction L generalizing m with
  | nil =>
    intro hne
    exact absurd rfl hne
  | cons j rest ih =>
    intro hne
    rw [List.foldl_cons] at hne
    by_cases hj : step m j a = m a
    · have hne' : (rest.foldl step (step m j)) a ≠ (step m j) a := by
        intro hcontra
        exact hne (hcontra.trans hj)
      rcases ih (step m j)
          (fun mm i hi hch => hstep mm i (List.mem_cons_of_mem _ hi) hch)
          hne' with ⟨i, hi, hQ⟩
      exact ⟨i, List.mem_cons_of_mem _ hi, hQ⟩
    · exact ⟨j, List.mem_cons_self _ _,
             hstep m j (List.mem_cons_self _ _) hj⟩

/-- The pair-state analogue of `foldl_mem_frame`, for folds that also
carry an error flag. -/
theorem foldl_pair_frame (step : (Bool × Mem) → Nat → (Bool × Mem))
    (L : List Nat) (s : Bool × Mem) (a : Nat) (Q : Nat → Prop)
    (hstep : ∀ ss i, i ∈ L → (step ss i).2 a ≠ ss.2 a → Q i) :
    ((L.foldl step s).2) a ≠ s.2 a → ∃ i ∈ L, Q i := by
  induction L generalizing s with
  | nil =>
    intro hne
    exact absurd rfl hne
  | cons j rest ih =>
    intro hne
    rw [List.foldl_cons] at hne
    by_cases hj : (step s j).2 a = s.2 a
    · have hne' : (rest.foldl step (step s j)).2 a ≠ (step s j).2 a := by
        intro hcontra
        exact hne (hcontra.trans hj)
      rcases ih (step s j)
          (fun ss i hi hch => hstep ss i (List.mem_cons_of_mem _ hi) hch)
          hne' with ⟨i, hi, hQ⟩
      exact ⟨i, List.mem_cons_of_mem _ hi, hQ⟩
    · exact ⟨j, List.mem_cons_self _ _,
             hstep s j (List.mem_cons_self _ _) hj⟩

theorem memcpyN_frame (m : Mem) (addr : Nat) (src : Nat → Nat) (n a : Nat)
    (h : memcpyN m addr src n a ≠ m a) : addr ≤ a ∧ a < addr + n := by
  by_contra hout
  exact h (by unfold memcpyN; rw [if_neg hout])

theorem memset_frame (m : Mem) (addr n a : Nat)
    (h : memset m addr n a ≠ m a) : addr ≤ a ∧ a < addr + n := by
  by_contra hout
  exact h (by unfold memset; rw [if_neg hout])

theorem onnxCopyStep_frame (c : OnnxContext) (getOk : Nat → Bool)
    (outData : Nat → Nat → Nat) (s : Bool × Mem) (i a : Nat)
    (h : (onnxCopyStep c getOk outData s i).2 a ≠ s.2 a) :
    ∃ addr, c.out_buf i = some addr ∧ addr ≤ a ∧
      a < addr + min (c.out_size i) (c.outputs.getD i 0) := by
  unfold onnxCopyStep at h
  by_cases he : s.1
  · rw [if_pos he] at h
    exact absurd rfl h
  · rw [if_neg he] at h
    cases hb : c.out_buf i with
    | none =>
      rw [hb] at h
      exact absurd rfl h
    | some addr =>
      rw [hb] at h
      have h' : (if getOk i then
            ((false : Bool),
             memcpyN s.2 addr (outData i)
               (min (c.out_size i) (c.outputs.getD i 0)))
          else (true, s.2)).2 a ≠ s.2 a := h
      by_cases hg : getOk i
      · rw [if_pos hg] at h'
        exact ⟨addr, rfl, memcpyN_frame _ _ _ _ _ h'⟩
      · rw [if_neg hg] at h'
        exact absurd rfl h'

theorem tfliteCopyStep_frame (c : TFLiteContext) (it : TfLiteInterp)
    (outData : Nat → Nat → Nat) (m : Mem) (i a : Nat)
    (h : tfliteCopyStep c it outData m i a ≠ m a) :
    ∃ addr tsize, c.out_buf i = some addr ∧ it.outputs.get? i = some tsize
      ∧ addr ≤ a ∧ a < addr + min (c.out_size i) tsize := by
  unfold tfliteCopyStep at h
  cases hb : c.out_buf i with
  | none =>
    rw [hb] at h
    exact absurd rfl h
  | some addr =>
    rw [hb] at h
    cases ht : it.outputs.get? i with
    | none =>
      rw [ht] at h
      exact absurd rfl h
    | some tsize =>
      rw [ht] at h
      have h' : (if min (c.out_size i) tsize = tsize
          then memcpyN m addr (outData i) (min (c.out_size i) tsize)
          else m) a ≠ m a := h
      by_cases hc : min (c.out_size i) tsize = tsize
      · rw [if_pos hc] at h'
        exact ⟨addr, tsize, rfl, rfl, memcpyN_frame _ _ _ _ _ h'⟩
      · rw [if_neg hc] at h'
        exact absurd rfl h'

theorem stubZeroStep_frame (c : StubContext) (m : Mem) (i a : Nat)
    (h : stubZeroStep c m i a ≠ m a) :
    ∃ addr, c.out_buf i = some addr ∧ addr ≤ a ∧
      a < addr + c.out_size i := by
  unfold stubZeroStep at h
  cases hb : c.out_buf i with
  | none =>
    rw [hb] at h
    exact absurd rfl h
  | some addr =>
    rw [hb] at h
    have h' : (if 0 < c.out_size i
        then memset m addr (c.out_size i) else m) a ≠ m a := h
    by_cases hs : 0 < c.out_size i
    · rw [if_pos hs] at h'
      exact ⟨addr, rfl, memset_frame _ _ _ _ h'⟩
    · rw [if_neg hs] at h'
      exact absurd rfl h'

theorem onnxCopyStep_fst (c : OnnxContext) (getOk : Nat → Bool)
    (outData : Nat → Nat → Nat) (s : Bool × Mem) (i : Nat) :
    (onnxCopyStep c getOk outData s i).1 = onnxErrStep c getOk s.1 i := by
  unfold onnxCopyStep onnxErrStep
  by_cases he : s.1
  · rw [if_pos he, if_pos he]
  · rw [if_neg he, if_neg he]
    cases hb : c.out_buf i with
    | none => rfl
    | some addr =>
      show (if getOk i then
            ((false : Bool),
             memcpyN s.2 addr (outData i)
               (min (c.out_size i) (c.outputs.getD i 0)))
          else (true, s.2)).1
        = (if getOk i then false else true)
      by_cases hg : getOk i
      · rw [if_pos hg, if_pos hg]
      · rw [if_neg hg, if_neg hg]

theorem onnxCopy_foldl_fst (c : OnnxContext) (getOk : Nat → Bool)
    (outData : Nat → Nat → Nat) (L : List Nat) (s : Bool × Mem) :
    (L.foldl (onnxCopyStep c getOk outData) s).1
      = L.foldl (onnxErrStep c getOk) s.1 := by
  induction L generalizing s with
  | nil => rfl
  | cons j rest ih =>
    rw [List.foldl_cons, List.foldl_cons, ih, onnxCopyStep_fst]

/-- The return code of `onnx_invoke` depends only on the session flag,
the engine `Run` outcome and the error-flag fold. -/
theorem onnx_invoke_fst (c : OnnxContext) (runOk : Bool)
    (getOk : Nat → Bool) (outData : Nat → Nat → Nat) (m : Mem) :
    (onnx_invoke c runOk getOk outData m).1
      = if ¬ c.session then -1
        else if ¬ runOk then -1
        else if (List.range c.outputs.length).foldl (onnxErrStep c getOk)
               false then -1 else 0 := by
  unfold onnx_invoke
  by_cases hs : ¬ c.session
  · rw [if_pos hs, if_pos hs]
  · rw [if_neg hs, if_neg hs]
    by_cases hr : ¬ runOk
    · rw [if_pos hr, if_pos hr]
    · rw [if_neg hr, if_neg hr]
      show (if ((List.range c.outputs.length).foldl
              (onnxCopyStep c getOk outData) (false, m)).1
            then (-1 : Int) else 0) = _
      rw [onnxCopy_foldl_fst]

/-- The return code of `tflite_invoke` depends only on the interpreter's
presence and the engine `Invoke` outcome. -/
theorem tflite_invoke_fst (c : TFLiteContext) (invokeOk : Bool)
    (outData : Nat → Nat → Nat) (m : Mem) :
    (tflite_invoke c invokeOk outData m).1
      = match c.interp with
        | none => -1
        | some _ => if ¬ invokeOk then -1 else 0 := by
  unfold tflite_invoke
  cases hi : c.interp with
  | none => rfl
  | some it =>
    show (if ¬ invokeOk then ((-1 : Int), m)
          else (0, (List.range c.output_binding_count).foldl
                 (tfliteCopyStep c it outData) m)).1
        = if ¬ invokeOk then -1 else 0
    by_cases hv : ¬ invokeOk
    · rw [if_pos hv, if_pos hv]
    · rw [if_neg hv, if_neg hv]

/-- C9: for every adapter variant, `invoke` writes into each bound
output buffer only within `min(bound size, actual tensor size)` bytes of
its start (every changed memory address lies in such a window), and its
return code does not depend on the bound sizes — an undersized caller
buffer never causes a failure (the stub's `invoke` succeeds outright). -/
theorem c9_invoke_bounded :
    (∀ (c : OnnxContext) (runOk : Bool) (getOk : Nat → Bool)
        (outData : Nat → Nat → Nat) (m : Mem) (a : Nat),
        (onnx_invoke c runOk getOk outData m).2 a ≠ m a →
        ∃ i addr, i < c.outputs.length ∧ c.out_buf i = some addr ∧
          addr ≤ a ∧ a < addr + min (c.out_size i) (c.outputs.getD i 0))
    ∧ (∀ (c : OnnxContext) (runOk : Bool) (getOk : Nat → Bool)
        (outData : Nat → Nat → Nat) (m : Mem) (s2 : Nat → Nat),
        (onnx_invoke c runOk getOk outData m).1
          = (onnx_invoke { c with out_size := s2 } runOk getOk outData m).1)
    ∧ (∀ (c : TFLiteContext) (it : TfLiteInterp) (invokeOk : Bool)
        (outData : Nat → Nat → Nat) (m : Mem) (a : Nat),
        c.interp = some it →
        (tflite_invoke c invokeOk outData m).2 a ≠ m a →
        ∃ i addr tsize, i < c.output_binding_count ∧
          c.out_buf i = some addr ∧ it.outputs.get? i = some tsize ∧
          addr ≤ a ∧ a < addr + min (c.out_size i) tsize)
    ∧ (∀ (c : TFLiteContext) (invokeOk : Bool)
        (outData : Nat → Nat → Nat) (m : Mem) (s2 : Nat → Nat),
        (tflite_invoke c invokeOk outData m).1
          = (tflite_invoke { c with out_size := s2 } invokeOk outData m).1)
    ∧ (∀ (c : StubContext) (m : Mem) (a : Nat),
        (stub_invoke c m).2.2 a ≠ m a →
        ∃ i addr, i < min c.output_count 32 ∧ c.out_buf i = some addr ∧
          addr ≤ a ∧ a < addr + c.out_size i)
    ∧ (∀ (c : StubContext) (m : Mem), (stub_invoke c m).1 = 0) := by
  refine ⟨?_, ?_, ?_, ?_, ?_, ?_⟩
  · intro c runOk getOk outData m a hch
    unfold onnx_invoke at hch
    by_cases hs : ¬ c.session
    · rw [if_pos hs] at hch
      exact absurd rfl hch
    · rw [if_neg hs] at hch
      by_cases hr : ¬ runOk
      · rw [if_pos hr] at hch
        exact absurd rfl hch
      · rw [if_neg hr] at hch
        have hfr := foldl_pair_frame (onnxCopyStep c getOk outData)
          (List.range c.outputs.length) (false, m) a
          (fun i => ∃ addr, c.out_buf i = some addr ∧ addr ≤ a ∧
            a < addr + min (c.out_size i) (c.outputs.getD i 0))
          (fun ss i _ h => onnxCopyStep_frame c getOk outData ss i a h)
          hch
        rcases hfr with ⟨i, hi, addr, hrest⟩
        exact ⟨i, addr, List.mem_range.1 hi, hrest⟩
  · intro c runOk getOk outData m s2
    rw [onnx_invoke_fst, onnx_invoke_fst]
    rfl
  · intro c it invokeOk outData m a hit hch
    have he : tflite_invoke c invokeOk outData m
        = if ¬ invokeOk then (-1, m)
          else (0, (List.range c.output_binding_count).foldl
                 (tfliteCopyStep c it outData) m) := by
      unfold tflite_invoke
      rw [hit]
    rw [he] at hch
    by_cases hv : ¬ invokeOk
    · rw [if_pos hv] at hch
      exact absurd rfl hch
    · rw [if_neg hv] at hch
      have hfr := foldl_mem_frame (tfliteCopyStep c it outData)
        (List.range c.output_binding_count) m a
        (fun i => ∃ addr tsize, c.out_buf i = some addr ∧
          it.outputs.get? i = some tsize ∧ addr ≤ a ∧
          a < addr + min (c.out_size i) tsize)
        (fun mm i _ h => tfliteCopyStep_frame c it outData mm i a h)
        hch
      rcases hfr with ⟨i, hi, addr, tsize, hrest⟩
      exact ⟨i, addr, tsize, List.mem_range.1 hi, hrest⟩
  · intro c invokeOk outData m s2
    rw [tflite_invoke_fst, tflite_invoke_fst]
  · intro c m a hch
    have hfr := foldl_mem_frame (stubZeroStep c)
      (List.range (min c.output_count 32)) m a
      (fun i => ∃ addr, c.out_buf i = some addr ∧ addr ≤ a ∧
        a < addr + c.out_size i)
      (fun mm i _ h => stubZeroStep_frame c mm i a h)
      hch
    rcases hfr with ⟨i, hi, addr, hrest⟩
    exact ⟨i, addr, List.mem_range.1 hi, hrest⟩
  · intro c m
    rfl

/-- Witness for C9 at a concrete stub context: binding a 2-byte buffer
at address 10, slot 0, then invoking changes byte 10, and that change is
certified to lie within the bound window. -/
theorem c9_invoke_bounded_witness :
    ∃ i addr,
      i < min ((stubRun [StubOp.load_file "m".data,
                         StubOp.set_output 0 (some 10) 2]
                  (stubInit, fun _ => 5)).1).output_count 32 ∧
      ((stubRun [StubOp.load_file "m".data,
                 StubOp.set_output 0 (some 10) 2]
          (stubInit, fun _ => 5)).1).out_buf i = some addr ∧
      addr ≤ 10 ∧
      10 < addr + ((stubRun [StubOp.load_file "m".data,
                             StubOp.set_output 0 (some 10) 2]
                      (stubInit, fun _ => 5)).1).out_size i :=
  c9_invoke_bounded.2.2.2.2.1
    (stubRun [StubOp.load_file "m".data, StubOp.set_output 0 (some 10) 2]
      (stubInit, fun _ => 5)).1
    (fun _ => 5) 10 (by decide)

/-! ### Claim C10 -/

/-- C10: for an index at or above the 32-slot table capacity, the stub's
`set_output` returns success (0) while leaving the binding table and
output count unchanged — so a subsequent `invoke` behaves exactly as if
the call had never happened and never writes that caller buffer —
whereas the onnx adapter's `set_output` returns failure (-1) for the
same index. -/
theorem c10_oob_set_output (sc : StubContext) (oc : OnnxContext)
    (idx : Nat) (buf : Option Nat) (size : Nat) (m : Mem)
    (h : 32 ≤ idx) :
    stub_set_output sc idx buf size = (0, sc)
    ∧ stub_invoke (stub_set_output sc idx buf size).2 m = stub_invoke sc m
    ∧ onnx_set_output oc idx buf size = (-1, oc) := by
  have hlt : ¬ idx < 32 := not_lt.2 h
  unfold stub_set_output onnx_set_output
  rw [if_neg hlt, if_pos h]
  exact ⟨rfl, rfl, rfl⟩

/-- Witness for C10 at index 32 on freshly created contexts. -/
theorem c10_oob_set_output_witness :
    stub_set_output stubInit 32 (some 5) 9 = (0, stubInit)
    ∧ stub_invoke (stub_set_output stubInit 32 (some 5) 9).2 (fun _ => 0)
        = stub_invoke stubInit (fun _ => 0)
    ∧ onnx_set_output onnxInit 32 (some 5) 9 = (-1, onnxInit) :=
  c10_oob_set_output stubInit onnxInit 32 (some 5) 9 (fun _ => 0)
    (by decide)

end NeuronShim
